import Mathlib

set_option maxRecDepth 4000

/-!
Verification of the Gloria serialization subsystem's specification against
the repository sources.  The equivalence checker `compare_class_instances`
of gloria/tests/test_serialize.py is embedded faithfully; the serializer
itself (gloria.utilities.serialize, Gloria.to_json / Gloria.from_json) is
not part of the provided sources, so the encode/decode pipeline is
modelled from the spec (sections 4.2 to 4.4), as marked on each such
definition.  Numeric values are embedded as rationals, so that the
tolerance-based comparisons of numpy and pandas are exact arithmetic here.
-/

namespace Gloria

/-- Coarse element-type category of a numpy/pandas dtype (dtype.kind). -/
inductive Kind where
  | intK | floatK | boolK | strK | dtK
  deriving DecidableEq

/-- A concrete numpy/pandas dtype: its kind together with the storage
width in bytes (itemsize).  Two dtypes of equal kind and different width
model e.g. float32 versus float64. -/
structure Dtype where
  kind : Kind
  itemsize : Nat
  deriving DecidableEq

/-- Python scalar values as they occur on the serialized object graph. -/
inductive Scalar where
  | int (n : Int)
  | float (q : Rat)
  | str (s : String)
  | bool (b : Bool)
  | none
  deriving DecidableEq

/-- Concrete Python classes relevant to the comparison helper: the Gloria
model class (a pydantic BaseModel subclass), nested pydantic config
entities, the abstract ModelBackendBase, a concrete fitted backend
subclass of it, and plain objects. -/
inductive ClassTag where
  | gloriaC | pydCfgC | backendBaseC | backendSubC | plainC
  deriving DecidableEq

/-- Python isinstance at the class level: isSubclassB a b is true when an
instance of class a is an instance of class b, that is when a equals b or
a is a subclass of b.  The only proper subclass relation in the embedded
hierarchy is the concrete backend below ModelBackendBase. -/
def isSubclassB (a b : ClassTag) : Bool :=
  decide (a = b) || (decide (a = ClassTag.backendSubC) && decide (b = ClassTag.backendBaseC))

/-- Classes that are pydantic BaseModel subclasses: those expose
model_fields and model_extra instead of a plain instance dict. -/
def isBaseModelTag : ClassTag → Bool
  | .gloriaC => true
  | .pydCfgC => true
  | _ => false

/-- Runtime Python values appearing as attributes of the serialized object
graph.  The obj constructor carries the concrete class, the declared
fields (model_fields for pydantic classes, the instance dict otherwise)
and the pydantic extra fields (empty by convention for non-pydantic
objects).  The handle constructor stands for a live, non-serializable
native object such as a CmdStanPy fit handle. -/
inductive Value where
  | scalar (s : Scalar)
  | ndarray (shape : List Nat) (dtype : Dtype) (data : List Rat)
  | series (dtype : Dtype) (data : List Rat)
  | frame (cols : List (String × Dtype × List Rat))
  | pdict (entries : List (String × Value))
  | obj (cls : ClassTag) (fields : List (String × Value)) (extra : List (String × Value))
  | handle (id : Nat)

/-- First-match association-list lookup, the embedding of Python dict
subscription and of getattr over an instance dict. -/
def lookupV (k : String) : List (String × Value) → Option Value
  | [] => Option.none
  | (k', v) :: rest => if k = k' then some v else lookupV k rest

/-- Python getattr on an embedded instance: a lookup over declared fields
followed by the extra fields. -/
def getattrV (v : Value) (name : String) : Option Value :=
  match v with
  | .obj _ f e => lookupV name (f ++ e)
  | _ => Option.none

/-- Python dict subscription desired_val[k]; non-dict values are not
subscriptable by string. -/
def subscriptV (v : Value) (k : String) : Option Value :=
  match v with
  | .pdict es => lookupV k es
  | _ => Option.none

/-- Duplicate removal keeping the first occurrence, the embedding of
building a Python set from an attribute-name iteration. -/
def dedupAux : List String → List String → List String
  | [], _ => []
  | x :: xs, seen => if x ∈ seen then dedupAux xs seen else x :: dedupAux xs (x :: seen)

/-- Duplicate removal keeping first occurrences. -/
def dedup (l : List String) : List String := dedupAux l []

/-- Set difference on name lists, the embedding of Python set
subtraction. -/
def listDiff (a b : List String) : List String := a.filter (fun x => decide (x ∉ b))

/-- Set equality of two name lists, the embedding of Python set
equality. -/
def setEqS (a b : List String) : Bool :=
  a.all (fun x => decide (x ∈ b)) && b.all (fun x => decide (x ∈ a))

/-- The attribute names compare_class_instances extracts from one
instance: model_fields union model_extra for pydantic BaseModel
instances, the instance dict keys otherwise, minus the ignored names.
This mirrors lines 49 to 59 of test_serialize.py. -/
def liveAttrs (c : ClassTag) (fields extra : List (String × Value)) (ignore : List String) :
    List String :=
  if isBaseModelTag c then
    listDiff (dedup (fields.map Prod.fst ++ extra.map Prod.fst)) ignore
  else
    listDiff (dedup ((fields ++ extra).map Prod.fst)) ignore

/-- Numeric reading of a Python scalar: ints, floats and bools (True
being 1 and False 0) are numbers; strings and None are not. -/
def numScalar? : Scalar → Option Rat
  | .int n => some (n : Rat)
  | .float q => some q
  | .bool b => some (if b then 1 else 0)
  | _ => Option.none

/-- Python equality on scalars: numeric scalars compare by numeric value
across types, strings and None compare structurally, and mixed
non-numeric comparisons are False. -/
def pyEqS (a b : Scalar) : Bool :=
  match numScalar? a, numScalar? b with
  | some x, some y => decide (x = y)
  | _, _ =>
    match a, b with
    | .str s, .str t => decide (s = t)
    | .none, .none => true
    | _, _ => false

/-- Relative tolerance of numpy.allclose (default 1e-05). -/
def rtolQ : Rat := 1 / 100000

/-- Absolute tolerance of numpy.allclose (default 1e-08). -/
def atolQ : Rat := 1 / 100000000

/-- Elementwise closeness test of numpy.allclose: absolute difference
within atol plus rtol times the magnitude of the desired value. -/
def closeQ (x y : Rat) : Bool := decide (|x - y| ≤ atolQ + rtolQ * |y|)

/-- Flattened-array closeness: equal lengths and elementwise closeQ.
Also used as the model of the pandas value comparison, whose default
tolerances have the same magnitudes. -/
def allcloseL (xs ys : List Rat) : Bool :=
  decide (xs.length = ys.length) && (List.zip xs ys).all (fun p => closeQ p.1 p.2)

/-- Failure reports of the embedded assertion-form checker; each carries
the offending attribute name where the source assert would name it via
the traceback. -/
inductive CmpErr where
  | typeMismatch
  | attrSetMismatch
  | attributeError (attr : String)
  | broadcastError (attr : String)
  | seriesMismatch (attr : String)
  | frameMismatch (attr : String)
  | kindMismatch (attr : String)
  | missingKey (attr k : String)
  | valueMismatch (attr : String)
  deriving DecidableEq

/-- Embedding of the numpy.allclose call: returns the Boolean closeness
verdict, or an error when the two values cannot be broadcast against each
other as numeric arrays (numpy raises in that case). -/
def npAllcloseE (attr : String) : Value → Value → Except CmpErr Bool
  | .ndarray sa _ xs, .ndarray sb _ ys =>
    if sa = sb then .ok (allcloseL xs ys)
    else if ys.length = 1 then .ok (xs.all (fun x => closeQ x (ys.headD 0)))
    else if xs.length = 1 then .ok (ys.all (fun y => closeQ (xs.headD 0) y))
    else .error (.broadcastError attr)
  | .ndarray _ _ xs, .scalar s =>
    (match numScalar? s with
     | some y => .ok (xs.all (fun x => closeQ x y))
     | Option.none => .error (.broadcastError attr))
  | .scalar s, .ndarray _ _ ys =>
    (match numScalar? s with
     | some x => .ok (ys.all (fun y => closeQ x y))
     | Option.none => .error (.broadcastError attr))
  | .scalar a, .scalar b =>
    (match numScalar? a, numScalar? b with
     | some x, some y => .ok (closeQ x y)
     | _, _ => .error (.broadcastError attr))
  | _, _ => .error (.broadcastError attr)

/-- Embedding of pandas.testing.assert_series_equal with its default
options: the dtype is compared exactly (check_dtype is True by default)
and the values with the default tolerance. -/
def assertSeriesEqualM (attr : String) : Value → Value → Except CmpErr Unit
  | .series dta xs, .series dtb ys =>
    if dta = dtb then
      if allcloseL xs ys then .ok () else .error (.seriesMismatch attr)
    else .error (.seriesMismatch attr)
  | _, _ => .error (.seriesMismatch attr)

/-- Structural column comparison underlying assert_frame_equal: same
column names in the same order and close values; dtypes are deliberately
not consulted here (the caller passes check_dtype=False). -/
def colsClose : List (String × Dtype × List Rat) → List (String × Dtype × List Rat) → Bool
  | [], [] => true
  | (na, _, xs) :: ra, (nb, _, ys) :: rb =>
    decide (na = nb) && allcloseL xs ys && colsClose ra rb
  | _, _ => false

/-- Embedding of pandas.testing.assert_frame_equal as called at line 75
of test_serialize.py, with check_dtype=False: columns, order and values
are compared, dtypes are not.  Frames carry a default range index, which
therefore always agrees and is left implicit. -/
def assertFrameEqualM (attr : String) : Value → Value → Except CmpErr Unit
  | .frame ca, .frame cb =>
    if colsClose ca cb then .ok () else .error (.frameMismatch attr)
  | _, _ => .error (.frameMismatch attr)

/-- First-match lookup of a frame column by name, the embedding of
DataFrame subscription df[col]. -/
def lookupCol (k : String) : List (String × Dtype × List Rat) → Option (Dtype × List Rat)
  | [] => Option.none
  | (k', d, xs) :: rest => if k = k' then some (d, xs) else lookupCol k rest

/-- The per-column dtype-kind loop of lines 76 to 79 of
test_serialize.py: for each column name of the actual frame, the kinds of
the two frames' columns of that name must agree. -/
def kindLoop (attr : String) (ca cb : List (String × Dtype × List Rat)) :
    List String → Except CmpErr Unit
  | [] => .ok ()
  | n :: rest =>
    match lookupCol n ca, lookupCol n cb with
    | some (da, _), some (db, _) =>
      if da.kind = db.kind then kindLoop attr ca cb rest else .error (.kindMismatch attr)
    | _, _ => .error (.kindMismatch attr)

/-- The DataFrame branch of compare_class_instances: assert_frame_equal
with check_dtype=False, followed by the per-column kind assertions. -/
def assertFrameKindM (attr : String) (av dv : Value) : Except CmpErr Unit :=
  match assertFrameEqualM attr av dv with
  | .error e => .error e
  | .ok _ =>
    match av, dv with
    | .frame ca, .frame cb => kindLoop attr ca cb (ca.map Prod.fst)
    | _, _ => .error (.frameMismatch attr)

/-- Size bound for lookups, used for termination of the recursive
comparison functions. -/
theorem lookupV_sizeOf_lt {k : String} :
    ∀ {l : List (String × Value)} {v : Value}, lookupV k l = some v → sizeOf v < sizeOf l := by
  intro l
  induction l with
  | nil => intro v h; simp [lookupV] at h
  | cons p rest ih =>
    intro v h
    obtain ⟨k', w⟩ := p
    by_cases hk : k = k'
    · simp [lookupV, hk] at h
      subst h
      simp
      omega
    · simp [lookupV, hk] at h
      have := ih h
      simp
      omega

/-- Size bound for list append, used for termination. -/
theorem sizeOf_append_le (l₁ l₂ : List (String × Value)) :
    sizeOf (l₁ ++ l₂) ≤ sizeOf l₁ + sizeOf l₂ := by
  induction l₁ with
  | nil => simp
  | cons x xs ih => simp; omega

/-- ClassTag values have unit size. -/
theorem classTag_sizeOf (c : ClassTag) : sizeOf c = 1 := by
  cases c <;> rfl

/-- Size bound for getattr results, used for termination of the
recursive comparison. -/
theorem getattrV_sizeOf_lt {v : Value} {name : String} {w : Value}
    (h : getattrV v name = some w) : sizeOf w + 1 < sizeOf v := by
  cases v with
  | obj c f e =>
    simp [getattrV] at h
    have h1 := lookupV_sizeOf_lt h
    have h2 := sizeOf_append_le f e
    have h3 := classTag_sizeOf c
    simp
    omega
  | scalar s => simp [getattrV] at h
  | ndarray sh dt xs => simp [getattrV] at h
  | series dt xs => simp [getattrV] at h
  | frame cols => simp [getattrV] at h
  | pdict es => simp [getattrV] at h
  | handle i => simp [getattrV] at h

mutual
/-- Python equality (the == operator) on embedded values: numeric
scalars compare by numeric value, dicts by keyed lookup with equal
cardinality, and the remaining value classes fall back to Python default
object identity, which distinct instances fail. -/
def pyEqV (a b : Value) : Bool :=
  match a, b with
  | .scalar x, .scalar y => pyEqS x y
  | .pdict la, .pdict lb => decide (la.length = lb.length) && pyEqSub la lb
  | _, _ => false
termination_by sizeOf a + sizeOf b

/-- Keyed containment check for Python dict equality: every entry of the
first dict is matched by the entry of the same key in the second. -/
def pyEqSub (l : List (String × Value)) (bs : List (String × Value)) : Bool :=
  match l with
  | [] => true
  | (k, v) :: rest =>
    (match h : lookupV k bs with
     | some w => pyEqV v w
     | Option.none => false) && pyEqSub rest bs
termination_by sizeOf l + sizeOf bs
decreasing_by
  · have := lookupV_sizeOf_lt h
    simp
    omega
  · simp <;> omega
end

/-- The fit_params special handling of lines 90 to 95 of
test_serialize.py: iterate the actual dict's entries and compare the
entry of the same key of the desired value, with numpy closeness for
array entries and Python equality otherwise.  A key absent from the
desired dict, or a desired value that is not subscriptable, is the
KeyError or TypeError the source would raise. -/
def fitParamsEntries (attr : String) : List (String × Value) → Value → Except CmpErr Unit
  | [], _ => .ok ()
  | (k, v) :: rest, dv =>
    match subscriptV dv k with
    | Option.none => .error (.missingKey attr k)
    | some w =>
      match v with
      | .ndarray _ _ _ =>
        (match npAllcloseE attr v w with
         | .ok true => fitParamsEntries attr rest dv
         | .ok false => .error (.valueMismatch attr)
         | .error e => .error e)
      | _ => if pyEqV v w then fitParamsEntries attr rest dv else .error (.valueMismatch attr)

/-- The tail of the dispatch chain of compare_class_instances: the
fit_params special case when the attribute has that name, and the plain
Python equality assert of line 98 otherwise. -/
def elseBranch (attr : String) (av dv : Value) : Except CmpErr Unit :=
  if attr = "fit_params" then
    match av with
    | .pdict entries => fitParamsEntries attr entries dv
    | _ => .error (.attributeError attr)
  else
    if pyEqV av dv then .ok () else .error (.valueMismatch attr)

mutual
/-- Embedding of compare_class_instances of
gloria/tests/test_serialize.py.  The source function is assertion based;
here each assert that would raise is an error result.  Arguments that are
not class instances land in the catch-all error, matching the Python
failure (a failed isinstance assert or a missing instance dict). -/
def compare_class_instances (actual desired : Value) (ignore : List String) :
    Except CmpErr Unit :=
  match actual, desired with
  | .obj ca fa ea, .obj cd fd ed =>
    if isSubclassB ca cd = false then .error .typeMismatch
    else if setEqS (liveAttrs ca fa ea ignore) (liveAttrs cd fd ed ignore) = false then
      .error .attrSetMismatch
    else compareAttrs (.obj ca fa ea) (.obj cd fd ed) (liveAttrs ca fa ea ignore)
  | _, _ => .error .typeMismatch
termination_by (sizeOf actual + 1, 0)
decreasing_by
  apply Prod.Lex.left
  omega

/-- The per-attribute loop of compare_class_instances (lines 65 to 98 of
test_serialize.py), iterating over the computed attribute-name set.  Note
the ndarray branch: the source computes np.allclose and discards the
result (the assert keyword is missing at line 71), so only a broadcast
failure can surface from that branch. -/
def compareAttrs (actual desired : Value) (attrs : List String) : Except CmpErr Unit :=
  match attrs with
  | [] => .ok ()
  | attr :: rest =>
    match hav : getattrV actual attr with
    | Option.none => .error (.attributeError attr)
    | some av =>
      match getattrV desired attr with
      | Option.none => .error (.attributeError attr)
      | some dv =>
        match
          (match av with
           | .ndarray _ _ _ =>
             (match npAllcloseE attr av dv with
              | .ok _ => Except.ok ()
              | .error e => .error e)
           | .series _ _ => assertSeriesEqualM attr av dv
           | .frame _ => assertFrameKindM attr av dv
           | .obj c _ _ =>
             if isBaseModelTag c then compare_class_instances av dv []
             else if isSubclassB c .backendBaseC then
               compare_class_instances av dv ["stan_fit", "model"]
             else elseBranch attr av dv
           | _ => elseBranch attr av dv) with
        | .ok _ => compareAttrs actual desired rest
        | .error e => .error e
termination_by (sizeOf actual, attrs.length)
decreasing_by
  · apply Prod.Lex.left
    have := getattrV_sizeOf_lt hav
    omega
  · apply Prod.Lex.left
    have := getattrV_sizeOf_lt hav
    omega
  · apply Prod.Lex.right
    simp
end

/-! The serializable entities.  The serializer module itself
(gloria.utilities.serialize with Gloria.to_json and Gloria.from_json) is
not among the provided sources; the entity schema and the codec below are
modelled from the spec, as the doc comments note. -/

/-- A fit-parameter map value: per the spec (section 3, Backend Entity,
and design note on parameter maps) each entry is either a scalar or an
array. -/
inductive PVal where
  | scalar (s : Scalar)
  | array (shape : List Nat) (dtype : Dtype) (data : List Rat)

/-- Runtime value of a fit-parameter entry. -/
def PVal.toValue : PVal → Value
  | .scalar s => .scalar s
  | .array sh dt xs => .ndarray sh dt xs

/-- Modelled from the spec: a nested pydantic sub-configuration entity of
the Gloria model, with scalar fields (section 3, Model Entity; the
concrete config class is not among the provided sources). -/
structure ConfigData where
  growth : String
  n_changepoints : Int

/-- Modelled from the spec: the fitting-backend entity (section 3,
Backend Entity).  It carries the fit-parameter map plus the two excluded
attributes stan_fit and model, which hold live native-engine handles of
arbitrary runtime type. -/
structure BackendData where
  fit_params : List (String × PVal)
  stan_fit : Value
  model : Value

/-- Modelled from the spec: a fitted Gloria model entity (section 3,
Model Entity): declared fields (a scalar metric name, the nested config,
the fitted tabular data and a numeric changepoints array) plus the
model_backend attached dynamically by the fitting process as a pydantic
extra field. -/
structure GloriaModel where
  metric : String
  config : ConfigData
  data : List (String × Dtype × List Rat)
  cp_shape : List Nat
  cp_dtype : Dtype
  cp_data : List Rat
  backend : BackendData

/-- Declared pydantic fields of the nested config entity. -/
def configFields (c : ConfigData) : List (String × Value) :=
  [("growth", .scalar (.str c.growth)),
   ("n_changepoints", .scalar (.int c.n_changepoints))]

/-- Runtime instance of the nested config entity. -/
def ConfigData.toValue (c : ConfigData) : Value := .obj .pydCfgC (configFields c) []

/-- Instance dict of a fitted backend: the fit-parameter map and the two
live native handles. -/
def backendDict (b : BackendData) : List (String × Value) :=
  [("fit_params", .pdict (b.fit_params.map (fun p => (p.1, p.2.toValue)))),
   ("stan_fit", b.stan_fit),
   ("model", b.model)]

/-- Runtime instance of a fitted backend, an instance of the concrete
backend subclass of ModelBackendBase. -/
def BackendData.toValue (b : BackendData) : Value := .obj .backendSubC (backendDict b) []

/-- Declared pydantic fields of the Gloria model entity. -/
def gloriaFields (m : GloriaModel) : List (String × Value) :=
  [("metric", .scalar (.str m.metric)),
   ("config", m.config.toValue),
   ("data", .frame m.data),
   ("changepoints", .ndarray m.cp_shape m.cp_dtype m.cp_data)]

/-- Pydantic extra fields of a fitted Gloria model: the backend attached
by the fitting process. -/
def gloriaExtra (m : GloriaModel) : List (String × Value) :=
  [("model_backend", m.backend.toValue)]

/-- Runtime instance of a fitted Gloria model. -/
def GloriaModel.toValue (m : GloriaModel) : Value :=
  .obj .gloriaC (gloriaFields m) (gloriaExtra m)

/-- Codec kinds of the attribute registries (spec section 3, Registry
Entry). -/
inductive CodecKind where
  | scalarK | arrayK | tabularK | nestedK | pmapK
  deriving DecidableEq

/-- Modelled from the spec: the module-level registry GLORIA_ATTRIBUTES
of gloria.utilities.serialize (a module not among the provided sources),
mapping every serializable attribute of the Gloria model entity, declared
and extra, to its codec kind; the model entity has an empty exclusion
set. -/
def GLORIA_ATTRIBUTES : List (String × CodecKind) :=
  [("metric", .scalarK),
   ("config", .nestedK),
   ("data", .tabularK),
   ("changepoints", .arrayK),
   ("model_backend", .nestedK)]

/-- Modelled from the spec: the registry BACKEND_ATTRIBUTES of
gloria.utilities.serialize, covering the backend attributes minus the
exclusion set containing stan_fit and model. -/
def BACKEND_ATTRIBUTES : List (String × CodecKind) :=
  [("fit_params", .pmapK)]

/-- The backend exclusion set (test_serialize.py lines 149 and 87). -/
def backendExclusions : List String := ["stan_fit", "model"]

/-- Encoded attribute forms of the interchange document (spec section
4.2): scalar pass-through, array with shape, full dtype and flattened
data, tabular with per-column dtype kind only, nested entity with a class
discriminant, and parameter map. -/
inductive Enc where
  | scalar (s : Scalar)
  | array (shape : List Nat) (dtype : Dtype) (data : List Rat)
  | table (cols : List (String × Kind × List Rat))
  | sub (tag : ClassTag) (doc : List (String × Enc))
  | pmap (entries : List (String × Enc))

/-- Modelled from the spec: encoding of one fit-parameter entry (section
4.2 rule 4): arrays by rule 1, scalars pass through. -/
def encodePVal : PVal → Enc
  | .scalar s => .scalar s
  | .array sh dt xs => .array sh dt xs

/-- Modelled from the spec: to_document (sections 4.2 to 4.4 and 6),
building one flat mapping keyed by attribute name; the tabular attribute
records only each column's dtype kind, the nested entities recurse into
sub-documents carrying their class discriminant, and the excluded backend
attributes stan_fit and model are skipped. -/
def to_document (m : GloriaModel) : List (String × Enc) :=
  [("metric", .scalar (.str m.metric)),
   ("config", .sub .pydCfgC
     [("growth", .scalar (.str m.config.growth)),
      ("n_changepoints", .scalar (.int m.config.n_changepoints))]),
   ("data", .table (m.data.map (fun c => (c.1, c.2.1.kind, c.2.2)))),
   ("changepoints", .array m.cp_shape m.cp_dtype m.cp_data),
   ("model_backend", .sub .backendSubC
     [("fit_params", .pmap (m.backend.fit_params.map (fun p => (p.1, encodePVal p.2))))])]

/-- Decode errors (spec section 7): a required attribute missing from the
document, or an encoded form that does not match the registry's codec
kind for the named attribute. -/
inductive DecErr where
  | missingAttribute (name : String)
  | unexpectedForm (name : String)
  deriving DecidableEq

/-- First-match lookup in a document. -/
def lookupE (k : String) : List (String × Enc) → Option Enc
  | [] => Option.none
  | (k', e) :: rest => if k = k' then some e else lookupE k rest

/-- Fetch of a required document attribute; absence is the
MissingAttribute failure of spec section 4.3. -/
def reqAttr (doc : List (String × Enc)) (name : String) : Except DecErr Enc :=
  match lookupE name doc with
  | some e => .ok e
  | Option.none => .error (.missingAttribute name)

/-- Storage width the decoder assigns to tabular columns: the document
records only the dtype kind for those (spec section 4.2 rule 2), and the
decoder materializes each kind at its default width. -/
def defaultWidth : Nat := 8

/-- Decoding of a string-scalar attribute. -/
def decStr (name : String) : Enc → Except DecErr String
  | .scalar (.str s) => .ok s
  | _ => .error (.unexpectedForm name)

/-- Decoding of an int-scalar attribute. -/
def decInt (name : String) : Enc → Except DecErr Int
  | .scalar (.int n) => .ok n
  | _ => .error (.unexpectedForm name)

/-- Modelled from the spec: decoding of the nested config entity,
dispatching on the class discriminant (section 4.2 rule 3). -/
def decConfig : Enc → Except DecErr ConfigData
  | .sub .pydCfgC d => do
    let g ← reqAttr d "growth" >>= decStr "growth"
    let n ← reqAttr d "n_changepoints" >>= decInt "n_changepoints"
    .ok { growth := g, n_changepoints := n }
  | _ => .error (.unexpectedForm "config")

/-- Modelled from the spec: decoding of the tabular attribute (section
4.2 rule 2): each column is rebuilt with its recorded dtype kind at the
default storage width. -/
def decData : Enc → Except DecErr (List (String × Dtype × List Rat))
  | .table cols => .ok (cols.map (fun c => (c.1, Dtype.mk c.2.1 defaultWidth, c.2.2)))
  | _ => .error (.unexpectedForm "data")

/-- Decoding of an array attribute (spec section 4.2 rule 1): shape,
dtype and flattened data are reversed into the array. -/
def decArray (name : String) : Enc → Except DecErr (List Nat × Dtype × List Rat)
  | .array sh dt xs => .ok (sh, dt, xs)
  | _ => .error (.unexpectedForm name)

/-- Decoding of one fit-parameter entry. -/
def decodePVal : Enc → Except DecErr PVal
  | .scalar s => .ok (.scalar s)
  | .array sh dt xs => .ok (.array sh dt xs)
  | _ => .error (.unexpectedForm "fit_params")

/-- Decoding of a fit-parameter map, entry by entry keyed by name. -/
def decodePEntries : List (String × Enc) → Except DecErr (List (String × PVal))
  | [] => .ok []
  | (k, e) :: rest =>
    match decodePVal e, decodePEntries rest with
    | .ok p, .ok ps => .ok ((k, p) :: ps)
    | .error er, _ => .error er
    | _, .error er => .error er

/-- Modelled from the spec: decoding of the backend sub-document
(sections 4.2 rule 3 and 4.4).  Only the registered attribute fit_params
is read; the excluded attributes stan_fit and model are never looked up
and are left at the constructor default, the absent marker None. -/
def decBackend : Enc → Except DecErr BackendData
  | .sub .backendSubC d => do
    let fpe ← reqAttr d "fit_params"
    match fpe with
    | .pmap es => do
      let fps ← decodePEntries es
      .ok { fit_params := fps, stan_fit := .scalar .none, model := .scalar .none }
    | _ => .error (.unexpectedForm "fit_params")
  | _ => .error (.unexpectedForm "model_backend")

/-- Modelled from the spec: from_document (sections 4.3 and 6),
reconstructing a model instance attribute by attribute; each required
attribute missing from the document fails with MissingAttribute. -/
def from_document (doc : List (String × Enc)) : Except DecErr GloriaModel := do
  let met ← reqAttr doc "metric" >>= decStr "metric"
  let cfg ← reqAttr doc "config" >>= decConfig
  let dat ← reqAttr doc "data" >>= decData
  let cps ← reqAttr doc "changepoints" >>= decArray "changepoints"
  let bk ← reqAttr doc "model_backend" >>= decBackend
  .ok { metric := met, config := cfg, data := dat,
        cp_shape := cps.1, cp_dtype := cps.2.1, cp_data := cps.2.2, backend := bk }

/-- The model that decoding the encoded document yields: identical to the
original except that tabular columns carry the default storage width for
their unchanged kind, and the two excluded backend handles are reset to
the absent marker. -/
def roundTripped (m : GloriaModel) : GloriaModel :=
  { m with
    data := m.data.map (fun c => (c.1, Dtype.mk c.2.1.kind defaultWidth, c.2.2)),
    backend := { m.backend with stan_fit := .scalar .none, model := .scalar .none } }

/-- All attribute names of a document, the sub-documents of nested
entities included (fit-parameter names are parameter names, not
attribute names, and are not collected). -/
def docAttrKeys : List (String × Enc) → List String
  | [] => []
  | (k, .sub _ d) :: rest => k :: (docAttrKeys d ++ docAttrKeys rest)
  | (k, _) :: rest => k :: docAttrKeys rest

/-- A concrete fitted model used as evaluation input for the witness
theorems: a tabular attribute with a datetime and a float32 column, a
changepoints array, and a fit-parameter map holding one scalar and one
array entry next to two live native handles. -/
def sampleModel : GloriaModel :=
  { metric := "MAE",
    config := { growth := "linear", n_changepoints := 5 },
    data := [("t", ⟨.dtK, 8⟩, [0, 1, 2]), ("y", ⟨.floatK, 4⟩, [(3 : Rat)/2, 2, (5 : Rat)/2])],
    cp_shape := [2],
    cp_dtype := ⟨.floatK, 8⟩,
    cp_data := [1, 2],
    backend :=
      { fit_params :=
          [("alpha", .scalar (.float (1/2))), ("beta", .array [3] ⟨.floatK, 8⟩ [1, 2, 3])],
        stan_fit := .handle 0,
        model := .handle 1 } }

/-! Supporting lemmas. -/

/-- Closeness is reflexive: the tolerance bound is positive. -/
theorem closeQ_self (x : Rat) : closeQ x x = true := by
  simp [closeQ, atolQ, rtolQ]
  positivity

/-- Arrays are allclose to themselves. -/
theorem allcloseL_self : ∀ xs : List Rat, allcloseL xs xs = true
  | [] => by simp [allcloseL]
  | x :: rest => by
    have ih := allcloseL_self rest
    simp [allcloseL, closeQ_self] at ih ⊢
    exact ih

/-- Python scalar equality is reflexive. -/
theorem pyEqS_self (s : Scalar) : pyEqS s s = true := by
  cases s <;> simp [pyEqS, numScalar?]

/-- Decoding inverts encoding on a fit-parameter entry. -/
theorem decodePVal_encodePVal (v : PVal) : decodePVal (encodePVal v) = .ok v := by
  cases v <;> rfl

/-- Decoding inverts encoding on a fit-parameter map. -/
theorem decodePEntries_encode (l : List (String × PVal)) :
    decodePEntries (l.map (fun p => (p.1, encodePVal p.2))) = .ok l := by
  induction l with
  | nil => rfl
  | cons p rest ih => simp [decodePEntries, decodePVal_encodePVal, ih]

/-- Parsing the document built from a fitted model succeeds and yields
the round-tripped model: the original with default tabular column widths
and absent backend handles. -/
theorem from_to_document (m : GloriaModel) :
    from_document (to_document m) = .ok (roundTripped m) := by
  simp [from_document, to_document, reqAttr, lookupE, decStr, decInt, decConfig, decData,
    decArray, decBackend, decodePEntries_encode, roundTripped, List.map_map, bind, Except.bind]

/-- Reduction of the runtime value of a scalar fit-parameter entry. -/
theorem toValue_scalar (s : Scalar) : (PVal.scalar s).toValue = .scalar s := rfl

/-- Reduction of the runtime value of an array fit-parameter entry. -/
theorem toValue_array (sh : List Nat) (dt : Dtype) (xs : List Rat) :
    (PVal.array sh dt xs).toValue = .ndarray sh dt xs := rfl

/-- Lookup in a fit-parameter dict with distinct keys finds each entry's
own value. -/
theorem lookupV_map_self :
    ∀ {l : List (String × PVal)}, (l.map Prod.fst).Nodup →
      ∀ {k : String} {v : PVal}, (k, v) ∈ l →
        lookupV k (l.map (fun p => (p.1, p.2.toValue))) = some v.toValue := by
  intro l
  induction l with
  | nil => intro _ k v hm; simp at hm
  | cons p rest ih =>
    intro hnd k v hm
    obtain ⟨k', v'⟩ := p
    simp at hnd
    rcases List.mem_cons.mp hm with hhead | htail
    · injection hhead with h1 h2
      subst h1; subst h2
      simp [lookupV]
    · have hk : k ≠ k' := by
        intro he
        subst he
        exact hnd.1 v htail
      simp [lookupV, hk]
      exact ih hnd.2 htail

/-- The fit-parameter loop succeeds whenever the desired value yields
each actual entry's own value under subscription. -/
theorem fitParamsEntries_of_lookup (attr : String) (dv : Value) :
    ∀ (sub : List (String × PVal)),
      (∀ k v, (k, v) ∈ sub → subscriptV dv k = some v.toValue) →
      fitParamsEntries attr (sub.map (fun p => (p.1, p.2.toValue))) dv = .ok () := by
  intro sub
  induction sub with
  | nil => intro _; rfl
  | cons p rest ih =>
    intro hl
    obtain ⟨k, v⟩ := p
    have hk := hl k v (List.mem_cons_self _ _)
    have hrest := ih (fun k' v' hm => hl k' v' (List.mem_cons_of_mem _ hm))
    cases v with
    | scalar s =>
      simp [fitParamsEntries, hk, toValue_scalar, pyEqV, pyEqS_self, hrest]
    | array sh dt xs =>
      simp [fitParamsEntries, hk, toValue_array, npAllcloseE, allcloseL_self, hrest]

/-- The fit-parameter loop succeeds when a map with distinct keys is
compared against itself. -/
theorem fitParamsEntries_self (attr : String) (l : List (String × PVal))
    (h : (l.map Prod.fst).Nodup) :
    fitParamsEntries attr (l.map (fun p => (p.1, p.2.toValue)))
      (.pdict (l.map (fun p => (p.1, p.2.toValue)))) = .ok () := by
  apply fitParamsEntries_of_lookup
  intro k v hm
  simp [subscriptV]
  exact lookupV_map_self h hm

/-- Width-defaulted columns are structurally close to the originals. -/
theorem colsClose_default :
    ∀ cols : List (String × Dtype × List Rat),
      colsClose (cols.map (fun c => (c.1, Dtype.mk c.2.1.kind defaultWidth, c.2.2))) cols =
        true := by
  intro cols
  induction cols with
  | nil => rfl
  | cons c rest ih =>
    obtain ⟨n, dt, xs⟩ := c
    simp [colsClose, allcloseL_self, ih]

/-- Column lookup commutes with width defaulting. -/
theorem lookupCol_map_default (n : String) :
    ∀ cols : List (String × Dtype × List Rat),
      lookupCol n (cols.map (fun c => (c.1, Dtype.mk c.2.1.kind defaultWidth, c.2.2))) =
        (lookupCol n cols).map (fun p => (Dtype.mk p.1.kind defaultWidth, p.2)) := by
  intro cols
  induction cols with
  | nil => rfl
  | cons c rest ih =>
    obtain ⟨n', dt, xs⟩ := c
    by_cases hn : n = n' <;> simp [lookupCol, hn, ih]

/-- A name appearing among the columns is found by column lookup. -/
theorem lookupCol_isSome_of_mem {n : String} :
    ∀ {cols : List (String × Dtype × List Rat)}, n ∈ cols.map Prod.fst →
      (lookupCol n cols).isSome := by
  intro cols
  induction cols with
  | nil => intro hm; simp at hm
  | cons c rest ih =>
    intro hm
    obtain ⟨n', dt, xs⟩ := c
    by_cases hn : n = n'
    · simp [lookupCol, hn]
    · simp [hn] at hm
      simp [lookupCol, hn]
      refine ih ?_
      simpa using hm

/-- The per-column kind loop passes between a width-defaulted frame and
the original frame, over any list of names the original resolves. -/
theorem kindLoop_default (attr : String) (cols : List (String × Dtype × List Rat)) :
    ∀ ns : List String, (∀ n ∈ ns, n ∈ cols.map Prod.fst) →
      kindLoop attr (cols.map (fun c => (c.1, Dtype.mk c.2.1.kind defaultWidth, c.2.2))) cols
        ns = .ok () := by
  intro ns
  induction ns with
  | nil => intro _; rfl
  | cons n rest ih =>
    intro hns
    have hs := lookupCol_isSome_of_mem (hns n (List.mem_cons_self _ _))
    obtain ⟨⟨dt, xs⟩, hl⟩ := Option.isSome_iff_exists.mp hs
    simp [kindLoop, lookupCol_map_default, hl,
      ih (fun x hx => hns x (List.mem_cons_of_mem _ hx))]

/-- The DataFrame branch of the comparison passes between a
width-defaulted frame and the original. -/
theorem assertFrameKindM_default (attr : String) (cols : List (String × Dtype × List Rat)) :
    assertFrameKindM attr
      (.frame (cols.map (fun c => (c.1, Dtype.mk c.2.1.kind defaultWidth, c.2.2))))
      (.frame cols) = .ok () := by
  simp [assertFrameKindM, assertFrameEqualM, colsClose_default]
  exact kindLoop_default attr cols _ (by intro n hn; simpa using hn)

/-- The nested config entity compares equal to itself. -/
theorem compare_config_self (c : ConfigData) :
    compare_class_instances (.obj .pydCfgC (configFields c) [])
      (.obj .pydCfgC (configFields c) []) [] = .ok () := by
  simp [compare_class_instances, compareAttrs, configFields, liveAttrs, setEqS, listDiff,
    dedup, dedupAux, isSubclassB, isBaseModelTag, getattrV, lookupV, elseBranch, pyEqV,
    pyEqS_self]

/-- A decoded backend, with its handles reset to the absent marker,
compares equal to the original backend under the backend exclusion
set. -/
theorem compare_backend_rt (b : BackendData) (h : (b.fit_params.map Prod.fst).Nodup) :
    compare_class_instances
      (.obj .backendSubC (backendDict ⟨b.fit_params, .scalar .none, .scalar .none⟩) [])
      (.obj .backendSubC (backendDict b) []) ["stan_fit", "model"] = .ok () := by
  simp [compare_class_instances, compareAttrs, backendDict, liveAttrs, setEqS, listDiff,
    dedup, dedupAux, isSubclassB, isBaseModelTag, getattrV, lookupV, elseBranch,
    fitParamsEntries_self _ _ h]

/-- A round-tripped model compares equal to the original model under the
source checker, with no top-level ignore set. -/
theorem compare_roundTripped (m : GloriaModel)
    (h : (m.backend.fit_params.map Prod.fst).Nodup) :
    compare_class_instances ((roundTripped m).toValue) (m.toValue) [] = .ok () := by
  simp [GloriaModel.toValue, roundTripped, gloriaFields, gloriaExtra, ConfigData.toValue,
    BackendData.toValue, compare_class_instances, compareAttrs, liveAttrs, setEqS, listDiff,
    dedup, dedupAux, isSubclassB, isBaseModelTag, getattrV, lookupV, elseBranch, pyEqV,
    pyEqS_self, npAllcloseE, assertFrameKindM_default, compare_config_self,
    compare_backend_rt _ h]

/-! Claim theorems. -/

/-- C1: for every fitted Gloria model, deserializing its serialized form
(from_document applied to to_document) succeeds and yields a model that
the section-4.5 equivalence checker, embedded from
compare_class_instances with the backend exclusion set applied in its
backend branch, accepts as equivalent to the original.  The hypothesis
states that the fit-parameter map has distinct keys, as any Python dict
has. -/
theorem c1_roundtrip_equivalence (m : GloriaModel)
    (h : (m.backend.fit_params.map Prod.fst).Nodup) :
    from_document (to_document m) = .ok (roundTripped m) ∧
    compare_class_instances ((roundTripped m).toValue) (m.toValue) [] = .ok () :=
  ⟨from_to_document m, compare_roundTripped m h⟩

/-- Witness for C1 at the concrete sample model. -/
theorem c1_roundtrip_equivalence_witness :
    (sampleModel.backend.fit_params.map Prod.fst).Nodup ∧
    (from_document (to_document sampleModel) = .ok (roundTripped sampleModel) ∧
     compare_class_instances ((roundTripped sampleModel).toValue) (sampleModel.toValue) [] =
       .ok ()) :=
  ⟨by decide, c1_roundtrip_equivalence sampleModel (by decide)⟩

/-- C2: for every validly constructed fitted instance, the registry key
set of the model entity equals its declared plus extra attribute names
with an empty exclusion set, and the registry key set of the backend
entity equals its instance-dict keys minus the exclusion set containing
stan_fit and model. -/
theorem c2_registry_completeness (m : GloriaModel) :
    setEqS (GLORIA_ATTRIBUTES.map Prod.fst)
      (liveAttrs .gloriaC (gloriaFields m) (gloriaExtra m) []) = true ∧
    setEqS (BACKEND_ATTRIBUTES.map Prod.fst)
      (liveAttrs .backendSubC (backendDict m.backend) [] backendExclusions) = true :=
  ⟨rfl, rfl⟩

/-- C3: for every fitted model, the encoded document contains no
attribute key from the backend exclusion set at any nesting level,
decoding the document succeeds without those keys being present, and the
two excluded backend fields of the decoded model are left at the absent
default rather than populated. -/
theorem c3_exclusion_enforcement (m : GloriaModel) :
    "stan_fit" ∉ docAttrKeys (to_document m) ∧
    "model" ∉ docAttrKeys (to_document m) ∧
    from_document (to_document m) = .ok (roundTripped m) ∧
    (roundTripped m).backend.stan_fit = .scalar .none ∧
    (roundTripped m).backend.model = .scalar .none := by
  have hk : docAttrKeys (to_document m) =
      ["metric", "config", "growth", "n_changepoints", "data", "changepoints",
       "model_backend", "fit_params"] := by
    simp [to_document, docAttrKeys]
  refine ⟨?_, ?_, from_to_document m, rfl, rfl⟩ <;> rw [hk] <;> decide

/-- C4: the claim says a mismatched ndarray attribute makes the
assertion-form checker raise; the source instead computes np.allclose at
line 71 of test_serialize.py and discards its Boolean result, so two
arrays of the same shape that differ far beyond the tolerance pass the
check silently, as this evaluation shows; the second conjunct records
that the arrays are indeed not allclose. -/
theorem c4_ndarray_mismatch_silent_pass :
    compare_class_instances
      (.obj .plainC [("x", .ndarray [1] ⟨.floatK, 8⟩ [0])] [])
      (.obj .plainC [("x", .ndarray [1] ⟨.floatK, 8⟩ [1000])] []) [] = .ok () ∧
    allcloseL [0] [1000] = false := by
  constructor
  · simp [compare_class_instances, compareAttrs, liveAttrs, setEqS, listDiff, dedup, dedupAux,
      isSubclassB, isBaseModelTag, getattrV, lookupV, npAllcloseE]
  · have hc : closeQ 0 1000 = false := by
      simp [closeQ, atolQ, rtolQ]
      norm_num
    simp [allcloseL, hc]

/-- C5: a DataFrame attribute is compared structurally with
check_dtype=False, so equal columns whose dtypes agree in kind but differ
in storage width pass, while the per-column kind loop fails the check
when a column's kind differs even though the values are equal. -/
theorem c5_frame_kind_comparison (nm : String) (k : Kind) (w1 w2 : Nat) (xs : List Rat) :
    compare_class_instances
      (.obj .plainC [("history", .frame [(nm, ⟨k, w1⟩, xs)])] [])
      (.obj .plainC [("history", .frame [(nm, ⟨k, w2⟩, xs)])] []) [] = .ok () ∧
    compare_class_instances
      (.obj .plainC [("history", .frame [("a", ⟨.intK, 8⟩, [1, 2])])] [])
      (.obj .plainC [("history", .frame [("a", ⟨.floatK, 8⟩, [1, 2])])] []) [] =
      .error (.kindMismatch "history") := by
  constructor <;>
    simp [compare_class_instances, compareAttrs, liveAttrs, setEqS, listDiff, dedup, dedupAux,
      isSubclassB, isBaseModelTag, getattrV, lookupV, assertFrameKindM, assertFrameEqualM,
      colsClose, allcloseL_self, kindLoop, lookupCol]

/-- C6: a fit_params attribute holding one scalar and one array entry is
compared entry by entry keyed by name: the check succeeds exactly when
the scalar entries are Python-equal and the array entries are allclose,
and the desired map's entry order is irrelevant since entries are fetched
by key. -/
theorem c6_fit_params_per_key (s t : Scalar) (sh : List Nat) (dt : Dtype) (xs ys : List Rat) :
    (compare_class_instances
       (.obj .backendSubC
         [("fit_params", .pdict [("alpha", .scalar s), ("beta", .ndarray sh dt xs)])] [])
       (.obj .backendSubC
         [("fit_params", .pdict [("alpha", .scalar t), ("beta", .ndarray sh dt ys)])] []) []
      = .ok () ↔ (pyEqS s t = true ∧ allcloseL xs ys = true)) ∧
    (compare_class_instances
       (.obj .backendSubC
         [("fit_params", .pdict [("alpha", .scalar s), ("beta", .ndarray sh dt xs)])] [])
       (.obj .backendSubC
         [("fit_params", .pdict [("beta", .ndarray sh dt ys), ("alpha", .scalar t)])] []) []
      = .ok () ↔ (pyEqS s t = true ∧ allcloseL xs ys = true)) := by
  constructor <;>
  · by_cases h1 : pyEqS s t = true <;> by_cases h2 : allcloseL xs ys = true <;>
      simp [compare_class_instances, compareAttrs, liveAttrs, setEqS, listDiff, dedup, dedupAux,
        isSubclassB, isBaseModelTag, getattrV, lookupV, elseBranch, fitParamsEntries,
        subscriptV, npAllcloseE, pyEqV, h1, h2]

/-- C7 counterexample: two instances of different concrete classes, one
of the concrete backend class and one of its base class ModelBackendBase,
pass the checker, because the isinstance assert of line 46 of
test_serialize.py accepts any subclass instance; so a type mismatch
between different concrete types is not by itself a failure, refuting the
claim as stated. -/
theorem c7_exact_type_counterexample :
    compare_class_instances (.obj .backendSubC [] []) (.obj .backendBaseC [] []) [] = .ok () := by
  simp [compare_class_instances, compareAttrs, liveAttrs, setEqS, listDiff, dedup, dedupAux,
    isSubclassB, isBaseModelTag]

/-- C7 as amended: when the actual instance's class neither equals the
desired instance's class nor is a subclass of it, the comparison fails
immediately with the type mismatch, before any attribute of the two
instances is compared. -/
theorem c7_type_check_subclass (ca cd : ClassTag) (fa ea fd ed : List (String × Value))
    (ig : List String) (h : isSubclassB ca cd = false) :
    compare_class_instances (.obj ca fa ea) (.obj cd fd ed) ig = .error .typeMismatch := by
  simp [compare_class_instances, h]

/-- Witness for the amended C7 at concrete unrelated classes. -/
theorem c7_type_check_subclass_witness :
    isSubclassB .gloriaC .plainC = false ∧
    compare_class_instances (.obj .gloriaC [] []) (.obj .plainC [] []) [] =
      .error .typeMismatch :=
  ⟨by decide, c7_type_check_subclass _ _ _ _ _ _ _ (by decide)⟩

/-- C8: encoding is deterministic; in the pure functional model two runs
of to_document on the same entity are one and the same value, and the
document moreover does not depend on the excluded live handles, the only
attributes an unchanged entity could differ in across runs. -/
theorem c8_deterministic_encoding (m : GloriaModel) :
    to_document m = to_document m ∧
    (∀ sf mo : Value,
      to_document { m with backend := { m.backend with stan_fit := sf, model := mo } } =
        to_document m) :=
  ⟨rfl, fun _ _ => rfl⟩

/-- C9: the checker requires exact set equality of the two instances'
non-ignored attribute names: whenever the two live attribute-name sets
minus the ignore set differ, and the type check passes, the comparison
fails with the attribute-set mismatch. -/
theorem c9_attr_set_equality_required (ca cd : ClassTag) (fa ea fd ed : List (String × Value))
    (ig : List String) (h1 : isSubclassB ca cd = true)
    (h2 : setEqS (liveAttrs ca fa ea ig) (liveAttrs cd fd ed ig) = false) :
    compare_class_instances (.obj ca fa ea) (.obj cd fd ed) ig = .error .attrSetMismatch := by
  simp [compare_class_instances, h1, h2]

/-- Witness for C9: an instance carrying one extra attribute the other
lacks fails the check. -/
theorem c9_attr_set_equality_required_witness :
    isSubclassB .plainC .plainC = true ∧
    setEqS (liveAttrs .plainC [("foo", .scalar (.int 0))] [] [])
      (liveAttrs .plainC [] [] []) = false ∧
    compare_class_instances (.obj .plainC [("foo", .scalar (.int 0))] [])
      (.obj .plainC [] []) [] = .error .attrSetMismatch :=
  ⟨by decide, by decide, c9_attr_set_equality_required _ _ _ _ _ _ _ (by decide) (by decide)⟩

/-- C10: a Series attribute is compared by assert_series_equal with its
defaults, dtype included, so two Series equal in values and dtype kind
but of different storage widths fail the check, while the same data as
DataFrame columns passes the kind-only dtype comparison. -/
theorem c10_series_exact_dtype (k : Kind) (w1 w2 : Nat) (xs : List Rat) (h : w1 ≠ w2) :
    compare_class_instances
      (.obj .plainC [("s", .series ⟨k, w1⟩ xs)] [])
      (.obj .plainC [("s", .series ⟨k, w2⟩ xs)] []) [] = .error (.seriesMismatch "s") ∧
    compare_class_instances
      (.obj .plainC [("df", .frame [("a", ⟨k, w1⟩, xs)])] [])
      (.obj .plainC [("df", .frame [("a", ⟨k, w2⟩, xs)])] []) [] = .ok () := by
  constructor <;>
    simp [compare_class_instances, compareAttrs, liveAttrs, setEqS, listDiff, dedup, dedupAux,
      isSubclassB, isBaseModelTag, getattrV, lookupV, assertSeriesEqualM, assertFrameKindM,
      assertFrameEqualM, colsClose, allcloseL_self, kindLoop, lookupCol, Dtype.mk.injEq, h]

/-- Witness for C10 at float32 versus float64. -/
theorem c10_series_exact_dtype_witness :
    (4 : Nat) ≠ 8 ∧
    (compare_class_instances
       (.obj .plainC [("s", .series ⟨.floatK, 4⟩ [1])] [])
       (.obj .plainC [("s", .series ⟨.floatK, 8⟩ [1])] []) [] = .error (.seriesMismatch "s") ∧
     compare_class_instances
       (.obj .plainC [("df", .frame [("a", ⟨.floatK, 4⟩, [1])])] [])
       (.obj .plainC [("df", .frame [("a", ⟨.floatK, 8⟩, [1])])] []) [] = .ok ()) :=
  ⟨by decide, c10_series_exact_dtype .floatK 4 8 [1] (by decide)⟩

end Gloria
